import Mathlib

/-!
Verification of the event-to-destination routing and configuration subsystem
of the Claude-Bot repository (shallow embedding of `src/utils/database.py`,
`src/cogs/logging/base.py`, `src/cogs/logging/voice_logs.py` and
`src/cogs/logging/__init__.py`).

Modelling conventions:
* Guild ids, channel ids, message ids and user ids are natural numbers.  The
  Python code stores ids as TEXT in SQLite and converts with `str`/`int`;
  both conversions are injective on numeric ids, so the embedding works with
  the numeric value directly.
* `datetime.utcnow()` / `time.time()` are modelled as an explicit `now : Nat`
  (seconds) argument threaded through each operation.
* SQLite tables are lists of typed rows; `INSERT OR REPLACE` keyed on
  (guild_id, event_type) removes the conflicting row and appends the new one.
  (The table schemas for `log_events` and `log_event_channels` are not part
  of the checked-in sources; the (guild_id, event_type) key is taken from the
  spec's data model: "At most one destination per (guild, event_type) —
  last write wins (upsert semantics)".)
-/

namespace ClaudeBot

/-- Row of the `guild_configs` table (`src/utils/database.py`,
`create_or_update_guild_config`). Only the columns the routing subsystem
reads are carried; `log_channel_id` is `none` when the column is NULL. -/
structure GuildConfigRow where
  guild_id : Nat
  guild_name : String
  logging_enabled : Bool
  log_channel_id : Option Nat
  deriving Repr, DecidableEq

/-- Row of the `log_events` table (`set_log_event`). -/
structure LogEventRow where
  guild_id : Nat
  event_type : String
  enabled : Bool
  deriving Repr, DecidableEq

/-- Row of the `log_event_channels` table (`set_event_channel`). -/
structure EventChannelRow where
  guild_id : Nat
  event_type : String
  channel_id : Nat
  channel_name : String
  deriving Repr, DecidableEq

/-- The persistent state managed by `DatabaseManager`. -/
structure DB where
  guild_configs : List GuildConfigRow
  log_events : List LogEventRow
  log_event_channels : List EventChannelRow
  deriving Repr, DecidableEq

/-- `DatabaseManager.get_guild_config`: `SELECT * FROM guild_configs WHERE
guild_id = ?`, first row or `None`. -/
def get_guild_config (db : DB) (guild_id : Nat) : Option GuildConfigRow :=
  db.guild_configs.find? (fun r => r.guild_id == guild_id)

/-- Module-level `is_logging_enabled` (`src/utils/database.py`):
`config and config.get('logging_enabled', False)` — falsy (hence `false`)
when the guild has no config row. -/
def is_logging_enabled (db : DB) (guild_id : Nat) : Bool :=
  match get_guild_config db guild_id with
  | some c => c.logging_enabled
  | none => false

/-- `DatabaseManager.get_log_events`: rows of `log_events` for the guild
with `enabled = 1`. -/
def get_log_events (db : DB) (guild_id : Nat) : List LogEventRow :=
  db.log_events.filter (fun r => r.guild_id == guild_id && r.enabled)

/-- Module-level `is_event_enabled`: any enabled `log_events` row for the
(guild, event_type) pair. -/
def is_event_enabled (db : DB) (guild_id : Nat) (event_type : String) : Bool :=
  (get_log_events db guild_id).any (fun r => r.event_type == event_type)

/-- `DatabaseManager.set_log_event`: `INSERT OR REPLACE INTO log_events`
keyed on (guild_id, event_type). -/
def set_log_event (db : DB) (guild_id : Nat) (event_type : String)
    (enabled : Bool) : DB :=
  { db with log_events :=
      (db.log_events.filter
        (fun r => !(r.guild_id == guild_id && r.event_type == event_type))
      ++ [⟨guild_id, event_type, enabled⟩]) }

/-- `DatabaseManager.get_all_enabled_events`: enabled event types of a
guild. -/
def get_all_enabled_events (db : DB) (guild_id : Nat) : List String :=
  (db.log_events.filter
    (fun r => r.guild_id == guild_id && r.enabled)).map (·.event_type)

/-- `DatabaseManager.set_event_channel`: `INSERT OR REPLACE INTO
log_event_channels` keyed on (guild_id, event_type). -/
def set_event_channel (db : DB) (guild_id : Nat) (event_type : String)
    (channel_id : Nat) (channel_name : String) : DB :=
  { db with log_event_channels :=
      (db.log_event_channels.filter
        (fun r => !(r.guild_id == guild_id && r.event_type == event_type))
      ++ [⟨guild_id, event_type, channel_id, channel_name⟩]) }

/-- `DatabaseManager.set_events_channel`: one upsert per event type of the
list, in order, against the same channel. -/
def set_events_channel (db : DB) (guild_id : Nat) (event_types : List String)
    (channel_id : Nat) (channel_name : String) : DB :=
  event_types.foldl
    (fun d e => set_event_channel d guild_id e channel_id channel_name) db

/-- `DatabaseManager.get_event_channel`: `SELECT channel_id FROM
log_event_channels WHERE guild_id = ? AND event_type = ?`, first row or
`None`. -/
def get_event_channel (db : DB) (guild_id : Nat) (event_type : String) :
    Option Nat :=
  (db.log_event_channels.find?
    (fun r => r.guild_id == guild_id && r.event_type == event_type)).map
    (·.channel_id)

/-- `DatabaseManager.get_all_event_channels`: event_type → channel_id pairs
of a guild. -/
def get_all_event_channels (db : DB) (guild_id : Nat) :
    List (String × Nat) :=
  (db.log_event_channels.filter (fun r => r.guild_id == guild_id)).map
    (fun r => (r.event_type, r.channel_id))

/-- `DatabaseManager.get_channel_events`: `SELECT event_type FROM
log_event_channels WHERE guild_id = ? AND channel_id = ?`. -/
def get_channel_events (db : DB) (guild_id : Nat) (channel_id : Nat) :
    List String :=
  (db.log_event_channels.filter
    (fun r => r.guild_id == guild_id && r.channel_id == channel_id)).map
    (·.event_type)

/-- `DatabaseManager.remove_event_channel`: `DELETE FROM log_event_channels
WHERE guild_id = ? AND event_type = ?`. -/
def remove_event_channel (db : DB) (guild_id : Nat) (event_type : String) :
    DB :=
  { db with log_event_channels :=
      (db.log_event_channels.filter
        (fun r => !(r.guild_id == guild_id && r.event_type == event_type))) }

/-- `DatabaseManager.clear_all_event_channels`: `DELETE FROM
log_event_channels WHERE guild_id = ?`. -/
def clear_all_event_channels (db : DB) (guild_id : Nat) : DB :=
  { db with log_event_channels :=
      (db.log_event_channels.filter (fun r => !(r.guild_id == guild_id))) }

/-- Live properties of a channel as seen through `guild.get_channel`,
`isinstance(·, discord.TextChannel)` and `channel.permissions_for(guild.me)`
in `BaseLogger.get_log_channel`. -/
structure ChanInfo where
  is_text : Bool
  send_messages : Bool
  embed_links : Bool
  deriving Repr, DecidableEq

/-- The guild as the resolver observes it: `get_channel` returns the live
channel, or `none` when the id resolves to nothing. -/
structure GuildEnv where
  get_channel : Nat → Option ChanInfo

/-- A mapped or default channel is usable iff it resolves, is a text
channel, and the bot has both `send_messages` and `embed_links` there. -/
def channel_valid (g : GuildEnv) (channel_id : Nat) : Bool :=
  match g.get_channel channel_id with
  | some ch => ch.is_text && ch.send_messages && ch.embed_links
  | none => false

/-- Tier 2 of `BaseLogger.get_log_channel`: fall back to the guild config's
`log_channel_id` with the same existence + permission validation, without
self-healing. -/
def default_log_channel (g : GuildEnv) (db : DB) (guild_id : Nat) :
    Option Nat :=
  match get_guild_config db guild_id with
  | some c =>
    match c.log_channel_id with
    | some d => if channel_valid g d then some d else none
    | none => none
  | none => none

/-- `BaseLogger.get_log_channel` (`src/cogs/logging/base.py`): tier 1 uses
the per-event mapping when valid; a broken mapping is removed from the
store (self-heal) before falling through to tier 2; tier 3 returns `none`.
Returns the resolved channel together with the possibly self-healed
database. -/
def get_log_channel (g : GuildEnv) (db : DB) (guild_id : Nat)
    (event_type : String) : Option Nat × DB :=
  match get_event_channel db guild_id event_type with
  | some cid =>
    if channel_valid g cid then
      (some cid, db)
    else
      let db' := remove_event_channel db guild_id event_type
      (default_log_channel g db' guild_id, db')
  | none => (default_log_channel g db guild_id, db)

/-- `BaseLogger.check_logging_enabled`: general toggle, then the per-event
enablement. -/
def check_logging_enabled (db : DB) (guild_id : Nat) (event_type : String) :
    Bool :=
  is_logging_enabled db guild_id && is_event_enabled db guild_id event_type

/-- `LoggingAdmin.log_channels_reset`, database effect only: when the guild
has any mapping rows (`get_channel_mapping_summary` reports a non-empty
channel list) they are cleared via `clear_all_event_channels`; otherwise
the command replies "no channel mappings to reset" and touches nothing. -/
def log_channels_reset (db : DB) (guild_id : Nat) : DB :=
  if db.log_event_channels.any (fun r => r.guild_id == guild_id) then
    clear_all_event_channels db guild_id
  else
    db

/-! ## Voice session tracker (`src/cogs/logging/voice_logs.py`) -/

/-- The reason string passed to `VoiceLogs.end_session`, abstracted to the
distinct values the code produces ("User left channel", the
"Cleanup: ..." variants of `cleanup_stale_sessions`, "Bot shutdown"). -/
inductive EndReason where
  | userLeft
  | cleanupInvalidData
  | cleanupTooOld
  | cleanupMissingMember
  | cleanupNotInVoice
  | shutdown
  deriving Repr, DecidableEq

/-- One entry of `VoiceLogs.active_sessions` (the dict value built by
`start_session`): member reference (its user id), current channel,
start time, guild and move counter. -/
structure Session where
  member : Nat
  channel : Nat
  start_time : Nat
  guild_id : Nat
  moves : Nat
  deriving Repr, DecidableEq

/-- The dict returned by `VoiceLogs.end_session` (`duration` /
`duration_seconds` collapse to one numeric field in seconds). -/
structure SessionData where
  duration_seconds : Nat
  start_time : Nat
  end_time : Nat
  channel : Nat
  moves : Nat
  reason : EndReason
  deriving Repr, DecidableEq

/-- Observable outputs of the voice handlers: the analytics record
`log_event("voice_session_ended", ...)` emitted by `end_session`, an embed
delivered by `BaseLogger.send_log` (its optional "Session Duration" field
carried explicitly), and the `log_member` interaction-log calls that close
`handle_voice_join` / `handle_voice_leave` / `handle_voice_move`. -/
inductive Rec where
  | sessionEnded (user_id guild_id duration_seconds moves : Nat)
      (reason : EndReason)
  | embedSent (event_type : String) (channel_id : Nat)
      (duration_field : Option Nat)
  | memberJoinLog (user_id channel_id : Nat)
  | memberLeaveLog (user_id channel_id session_duration_seconds : Nat)
  | memberMoveLog (user_id from_channel to_channel : Nat)
  deriving Repr, DecidableEq

/-- Is a record the session-summary (`voice_session_ended`) record? -/
def is_session_end_rec : Rec → Bool
  | Rec.sessionEnded _ _ _ _ _ => true
  | _ => false

/-- Does a record carry a session-duration embed field? -/
def has_duration_field : Rec → Bool
  | Rec.embedSent _ _ (some _) => true
  | _ => false

/-- `self.voice_stats` of `VoiceLogs`. -/
structure VoiceStats where
  total_joins : Nat
  total_leaves : Nat
  total_moves : Nat
  active_users : List Nat
  deriving Repr, DecidableEq

/-- In-memory state of `VoiceLogs`: the `active_sessions` dict (an
association list keyed by user id, insertion ordered like a Python dict)
and the statistics counters. -/
structure VoiceState where
  active_sessions : List (Nat × Session)
  stats : VoiceStats
  deriving Repr, DecidableEq

/-- Dict lookup `self.active_sessions[user_id]` / `user_id in
self.active_sessions`. -/
def lookupSession (l : List (Nat × Session)) (user_id : Nat) :
    Option Session :=
  (l.find? (fun p => p.1 == user_id)).map (·.2)

/-- Dict assignment `self.active_sessions[member.id] = {...}`: replaces the
value in place when the key exists, otherwise appends. -/
def setSession (l : List (Nat × Session)) (user_id : Nat) (s : Session) :
    List (Nat × Session) :=
  if l.any (fun p => p.1 == user_id) then
    l.map (fun p => if p.1 == user_id then (p.1, s) else p)
  else
    l ++ [(user_id, s)]

/-- Dict removal `self.active_sessions.pop(user_id)` (the entry is
dropped). -/
def dropSession (l : List (Nat × Session)) (user_id : Nat) :
    List (Nat × Session) :=
  l.filter (fun p => !(p.1 == user_id))

/-- The in-place mutation of `handle_voice_move`: `if member.id in
self.active_sessions:` update the channel and increment `moves`. -/
def update_move (l : List (Nat × Session)) (user_id : Nat)
    (to_channel : Nat) : List (Nat × Session) :=
  if l.any (fun p => p.1 == user_id) then
    l.map (fun p =>
      if p.1 == user_id then
        (p.1, { p.2 with channel := to_channel, moves := p.2.moves + 1 })
      else p)
  else
    l

/-- `set.add` on `voice_stats['active_users']`. -/
def add_active_user (l : List Nat) (u : Nat) : List Nat :=
  if l.contains u then l else l ++ [u]

/-- `set.discard` on `voice_stats['active_users']`. -/
def discard_active_user (l : List Nat) (u : Nat) : List Nat :=
  l.filter (fun v => !(v == u))

/-- `VoiceLogs.start_session`: unconditionally (re)assigns the user's entry
of `active_sessions`; no record is emitted and no existing session is
ended. -/
def start_session (st : VoiceState) (user channel guild now : Nat) :
    VoiceState :=
  { st with active_sessions :=
      setSession st.active_sessions user ⟨user, channel, now, guild, 0⟩ }

/-- `VoiceLogs.end_session`: `None` when the user has no active session;
otherwise pops the session, computes the duration, emits the
`voice_session_ended` analytics record, and returns the session data. -/
def end_session (st : VoiceState) (user_id : Nat) (reason : EndReason)
    (now : Nat) : Option SessionData × VoiceState × List Rec :=
  match lookupSession st.active_sessions user_id with
  | none => (none, st, [])
  | some s =>
    let dur := now - s.start_time
    (some ⟨dur, s.start_time, now, s.channel, s.moves, reason⟩,
     { st with active_sessions := dropSession st.active_sessions user_id },
     [Rec.sessionEnded user_id s.guild_id dur s.moves reason])

/-- `BaseLogger.send_log`: resolve the destination via `get_log_channel`
(side effect: tier-1 self-heal of the database); when a channel is found
the embed is sent there, otherwise the event is dropped with a warning.
The embed itself is abstracted to its optional session-duration field. -/
def send_log (env : GuildEnv) (db : DB) (guild : Nat) (event_type : String)
    (duration_field : Option Nat) : DB × List Rec :=
  match get_log_channel env db guild event_type with
  | (some c, db') => (db', [Rec.embedSent event_type c duration_field])
  | (none, db') => (db', [])

/-- `VoiceLogs.handle_voice_join`: gate on `check_logging_enabled`, start
the session, send the join embed, bump the statistics, and log the
`voice_join` member record. -/
def handle_voice_join (env : GuildEnv) (db : DB) (st : VoiceState)
    (user channel guild now : Nat) : DB × VoiceState × List Rec :=
  if check_logging_enabled db guild "voice_join" then
    let st1 := start_session st user channel guild now
    let (db', sendRecs) := send_log env db guild "voice_join" none
    let st2 := { st1 with stats := { st1.stats with
                   total_joins := st1.stats.total_joins + 1,
                   active_users :=
                     add_active_user st1.stats.active_users user } }
    (db', st2, sendRecs ++ [Rec.memberJoinLog user channel])
  else (db, st, [])

/-- `VoiceLogs.handle_voice_leave`: gate, end the session, send the leave
embed (the "Session Duration" field is added only when session data came
back with a truthy duration), bump the statistics, and log the
`voice_leave` member record with `session_duration_seconds` (0 when no
session existed). -/
def handle_voice_leave (env : GuildEnv) (db : DB) (st : VoiceState)
    (user channel guild now : Nat) : DB × VoiceState × List Rec :=
  if check_logging_enabled db guild "voice_leave" then
    let (data?, st1, endRecs) := end_session st user EndReason.userLeft now
    let durField : Option Nat :=
      match data? with
      | some d =>
        if d.duration_seconds != 0 then some d.duration_seconds else none
      | none => none
    let (db', sendRecs) := send_log env db guild "voice_leave" durField
    let st2 := { st1 with stats := { st1.stats with
                   total_leaves := st1.stats.total_leaves + 1,
                   active_users :=
                     discard_active_user st1.stats.active_users user } }
    let durLog := match data? with
      | some d => d.duration_seconds
      | none => 0
    (db', st2, endRecs ++ sendRecs ++ [Rec.memberLeaveLog user channel durLog])
  else (db, st, [])

/-- `VoiceLogs.handle_voice_move`: gate, update the existing session's
channel and move counter in place, send the move embed, bump the move
statistics, and log the `voice_move` member record. -/
def handle_voice_move (env : GuildEnv) (db : DB) (st : VoiceState)
    (user from_channel to_channel guild now : Nat) :
    DB × VoiceState × List Rec :=
  if check_logging_enabled db guild "voice_move" then
    let st1 := { st with active_sessions :=
                   update_move st.active_sessions user to_channel }
    let (db', sendRecs) := send_log env db guild "voice_move" none
    let st2 := { st1 with stats := { st1.stats with
                   total_moves := st1.stats.total_moves + 1 } }
    (db', st2, sendRecs ++ [Rec.memberMoveLog user from_channel to_channel])
  else (db, st, [])

/-- The stale-session scan of `VoiceLogs.cleanup_stale_sessions`: a session
is marked when it is older than six hours (strict, 21600 s), or otherwise
when the stored member is no longer in a voice channel (`member.voice`,
observed through `in_voice`).  A typed `Session` always carries
`start_time` and a member reference, so the "Invalid session data" and
"Missing member object" branches of the Python code cannot fire here. -/
def stale_sessions (in_voice : Nat → Bool) (l : List (Nat × Session))
    (now : Nat) : List (Nat × EndReason) :=
  l.filterMap (fun p =>
    if now - p.2.start_time > 21600 then some (p.1, EndReason.cleanupTooOld)
    else if !(in_voice p.2.member) then
      some (p.1, EndReason.cleanupNotInVoice)
    else none)

/-- The cleanup phase of the sweep: `for user_id, reason in stale_sessions:
await self.end_session(user_id, f"Cleanup: {reason}")`, collecting the
emitted records in order. -/
def end_sessions_list (st : VoiceState) (pairs : List (Nat × EndReason))
    (now : Nat) : VoiceState × List Rec :=
  match pairs with
  | [] => (st, [])
  | (u, r) :: rest =>
    let step := end_session st u r now
    let next := end_sessions_list step.2.1 rest now
    (next.1, step.2.2 ++ next.2)

/-- `VoiceLogs.cleanup_stale_sessions` (one sweep of the 30-minute task):
scan every active session, then end each marked one with its cleanup
reason. -/
def cleanup_stale_sessions (in_voice : Nat → Bool) (st : VoiceState)
    (now : Nat) : VoiceState × List Rec :=
  end_sessions_list st (stale_sessions in_voice st.active_sessions now) now

/-! ## Message-delete forwarding guard
(`ConfigurableLogging.on_message_delete`, `src/cogs/logging/__init__.py`) -/

/-- The coordinator's dedupe state: `self._processed_messages` (a set of
message ids modelled as a duplicate-free list) and `self._last_cleanup`. -/
structure DedupState where
  processed_messages : List Nat
  last_cleanup : Nat
  deriving Repr, DecidableEq

/-- The part of a deleted message the forwarding guard inspects. -/
structure MsgEvent where
  id : Nat
  has_attachments : Bool
  deriving Repr, DecidableEq

/-- Which dispatch module `on_message_delete` invoked for a message id. -/
inductive Dispatch where
  | attachment (msg_id : Nat)
  | message (msg_id : Nat)
  deriving Repr, DecidableEq

/-- `ConfigurableLogging.on_message_delete`: clear the dedupe set when the
last cleanup is more than five minutes (300 s) old; drop the event when
its id was already processed; otherwise record the id and route to the
attachment module (messages with attachments) or the plain message
module. -/
def on_message_delete (now : Nat) (msg : MsgEvent) (st : DedupState) :
    DedupState × List Dispatch :=
  let st1 := if now - st.last_cleanup > 300 then
      ({ processed_messages := [], last_cleanup := now } : DedupState)
    else st
  if st1.processed_messages.contains msg.id then
    (st1, [])
  else
    let st2 := { st1 with
                   processed_messages :=
                     st1.processed_messages ++ [msg.id] }
    if msg.has_attachments then
      (st2, [Dispatch.attachment msg.id])
    else
      (st2, [Dispatch.message msg.id])

/-! ## Helper lemmas -/

/-- Removing the (guild, event_type) mapping makes the subsequent lookup
come back absent. -/
theorem get_event_channel_remove_self (db : DB) (g : Nat) (e : String) :
    get_event_channel (remove_event_channel db g e) g e = none := by
  unfold get_event_channel remove_event_channel
  have h : ∀ r ∈ List.filter
      (fun r => !(r.guild_id == g && r.event_type == e))
      db.log_event_channels,
      ¬ (r.guild_id == g && r.event_type == e) = true := by
    intro r hr
    have hr2 := (List.mem_filter.mp hr).2
    simp only [Bool.not_eq_true'] at hr2
    simp [hr2]
  rw [List.find?_eq_none.mpr h]
  rfl

/-- `remove_event_channel` touches only the mapping table. -/
theorem get_guild_config_remove (db : DB) (g : Nat) (e : String)
    (g' : Nat) :
    get_guild_config (remove_event_channel db g e) g' =
      get_guild_config db g' := rfl

end ClaudeBot

namespace ClaudeBot

/-- C1: with a per-event mapping whose channel is a live text channel where
the bot can send and embed, `get_log_channel` returns exactly that mapped
channel (and in particular never falls through to the default), leaving
the database untouched. -/
theorem C1_mapped_channel_wins (g : GuildEnv) (db : DB) (guild : Nat)
    (event_type : String) (cid : Nat)
    (hmap : get_event_channel db guild event_type = some cid)
    (hvalid : channel_valid g cid = true) :
    get_log_channel g db guild event_type = (some cid, db) := by
  unfold get_log_channel
  rw [hmap]
  simp [hvalid]

def envW : GuildEnv :=
  ⟨fun n => if n == 5 || n == 9 then some ⟨true, true, true⟩ else none⟩

def dbW : DB :=
  ⟨[⟨1, "guild", true, some 9⟩], [⟨1, "message_delete", true⟩],
   [⟨1, "message_delete", 5, "del-log"⟩]⟩

theorem C1_mapped_channel_wins_witness :
    get_event_channel dbW 1 "message_delete" = some 5 ∧
    channel_valid envW 5 = true ∧
    get_log_channel envW dbW 1 "message_delete" = (some 5, dbW) :=
  ⟨by decide, by decide,
   C1_mapped_channel_wins envW dbW 1 "message_delete" 5 (by decide)
     (by decide)⟩

/-- C2: with a broken per-event mapping (deleted channel, wrong channel
type, or missing permissions) and a valid default channel,
`get_log_channel` returns the default and removes the broken mapping, so
a subsequent `get_event_channel` for the pair comes back absent. -/
theorem C2_broken_mapping_self_heals (g : GuildEnv) (db : DB)
    (guild : Nat) (event_type : String) (cid d : Nat) (c : GuildConfigRow)
    (hmap : get_event_channel db guild event_type = some cid)
    (hbroken : channel_valid g cid = false)
    (hconf : get_guild_config db guild = some c)
    (hdef : c.log_channel_id = some d)
    (hdvalid : channel_valid g d = true) :
    get_log_channel g db guild event_type =
      (some d, remove_event_channel db guild event_type) ∧
    get_event_channel (get_log_channel g db guild event_type).2
      guild event_type = none := by
  have hres : get_log_channel g db guild event_type =
      (some d, remove_event_channel db guild event_type) := by
    unfold get_log_channel
    rw [hmap]
    simp only [hbroken, Bool.false_eq_true, if_false]
    unfold default_log_channel
    rw [get_guild_config_remove, hconf]
    simp [hdef, hdvalid]
  refine ⟨hres, ?_⟩
  rw [hres]
  exact get_event_channel_remove_self db guild event_type

def dbW2 : DB :=
  ⟨[⟨1, "guild", true, some 9⟩], [⟨1, "member_join", true⟩],
   [⟨1, "member_join", 77, "gone"⟩]⟩

theorem C2_broken_mapping_self_heals_witness :
    get_event_channel dbW2 1 "member_join" = some 77 ∧
    channel_valid envW 77 = false ∧
    channel_valid envW 9 = true ∧
    get_log_channel envW dbW2 1 "member_join" =
      (some 9, remove_event_channel dbW2 1 "member_join") ∧
    get_event_channel (get_log_channel envW dbW2 1 "member_join").2
      1 "member_join" = none :=
  ⟨by decide, by decide, by decide,
   (C2_broken_mapping_self_heals envW dbW2 1 "member_join" 77 9
      ⟨1, "guild", true, some 9⟩ (by decide) (by decide) (by decide)
      (by decide) (by decide)).1,
   (C2_broken_mapping_self_heals envW dbW2 1 "member_join" 77 9
      ⟨1, "guild", true, some 9⟩ (by decide) (by decide) (by decide)
      (by decide) (by decide)).2⟩

/-- C7: a guild without a config row has `is_logging_enabled = false`, so
the shared enablement gate fails for every event type and the dispatch
handlers return without touching state or emitting any record. -/
theorem C7_no_config_disables_logging (db : DB) (guild : Nat)
    (h : get_guild_config db guild = none) :
    is_logging_enabled db guild = false ∧
    (∀ event_type, check_logging_enabled db guild event_type = false) ∧
    (∀ env st user channel now,
      handle_voice_join env db st user channel guild now = (db, st, [])) ∧
    (∀ env st user channel now,
      handle_voice_leave env db st user channel guild now = (db, st, [])) ∧
    (∀ env st user fc tc now,
      handle_voice_move env db st user fc tc guild now = (db, st, [])) := by
  have hlog : is_logging_enabled db guild = false := by
    unfold is_logging_enabled
    rw [h]
  have hcheck : ∀ event_type,
      check_logging_enabled db guild event_type = false := by
    intro event_type
    unfold check_logging_enabled
    rw [hlog]
    simp
  refine ⟨hlog, hcheck, ?_, ?_, ?_⟩
  · intro env st user channel now
    unfold handle_voice_join
    rw [hcheck "voice_join"]
    simp
  · intro env st user channel now
    unfold handle_voice_leave
    rw [hcheck "voice_leave"]
    simp
  · intro env st user fc tc now
    unfold handle_voice_move
    rw [hcheck "voice_move"]
    simp

def dbW7 : DB :=
  ⟨[⟨1, "other", true, some 9⟩], [⟨42, "voice_join", true⟩], []⟩

def stW7 : VoiceState := ⟨[], ⟨0, 0, 0, []⟩⟩

theorem C7_no_config_disables_logging_witness :
    get_guild_config dbW7 42 = none ∧
    is_logging_enabled dbW7 42 = false ∧
    check_logging_enabled dbW7 42 "voice_join" = false ∧
    handle_voice_join envW dbW7 stW7 1 2 42 100 = (dbW7, stW7, []) :=
  ⟨by decide,
   (C7_no_config_disables_logging dbW7 42 (by decide)).1,
   (C7_no_config_disables_logging dbW7 42 (by decide)).2.1 "voice_join",
   (C7_no_config_disables_logging dbW7 42 (by decide)).2.2.1
     envW stW7 1 2 100⟩

/-- C8: the reset command deletes every mapping row of the guild and
nothing else: the enablement table and the guild configs are untouched,
so every previously enabled event is still enabled. -/
theorem C8_reset_clears_mappings_only (db : DB) (guild : Nat) :
    ((log_channels_reset db guild).log_event_channels.all
      (fun r => !(r.guild_id == guild))) = true ∧
    (log_channels_reset db guild).log_events = db.log_events ∧
    (log_channels_reset db guild).guild_configs = db.guild_configs ∧
    ∀ g e, is_event_enabled (log_channels_reset db guild) g e =
      is_event_enabled db g e := by
  unfold log_channels_reset
  by_cases h : db.log_event_channels.any (fun r => r.guild_id == guild)
  · rw [if_pos h]
    refine ⟨?_, rfl, rfl, fun g e => rfl⟩
    unfold clear_all_event_channels
    simp only [List.all_eq_true, List.mem_filter]
    rintro r ⟨_, hr⟩
    exact hr
  · rw [if_neg h]
    refine ⟨?_, rfl, rfl, fun g e => rfl⟩
    simp only [List.any_eq_true, not_exists, not_and] at h
    simp only [List.all_eq_true]
    intro r hr
    simp [h r hr]

/-- One upsert against (g, a, ch): the events mapped to `ch` afterwards are
`a` together with the events previously mapped to `ch`. -/
theorem mem_get_channel_events_set_event_channel (db : DB) (g ch : Nat)
    (a nm e : String) :
    e ∈ get_channel_events (set_event_channel db g a ch nm) g ch ↔
    e = a ∨ e ∈ get_channel_events db g ch := by
  unfold get_channel_events set_event_channel
  simp only [List.mem_map, List.mem_filter, List.mem_append,
    List.mem_singleton, Bool.and_eq_true, beq_iff_eq, Bool.not_eq_true',
    Bool.and_eq_false_iff, beq_eq_false_iff_ne, ne_eq]
  constructor
  · rintro ⟨r, ⟨hr | rfl, hg, hc⟩, he⟩
    · exact Or.inr ⟨r, ⟨hr.1, hg, hc⟩, he⟩
    · exact Or.inl he.symm
  · rintro (rfl | ⟨r, ⟨hr, hg, hc⟩, he⟩)
    · exact ⟨⟨g, e, ch, nm⟩, ⟨Or.inr rfl, rfl, rfl⟩, rfl⟩
    · by_cases hk : r.event_type = a
      · refine ⟨⟨g, a, ch, nm⟩, ⟨Or.inr rfl, rfl, rfl⟩, ?_⟩
        rw [← he, hk]
      · exact ⟨r, ⟨Or.inl ⟨hr, Or.inr hk⟩, hg, hc⟩, he⟩

/-- `set_events_channel` over a list of event types: the events mapped to
`ch` afterwards are exactly the listed ones plus those previously mapped
to `ch`. -/
theorem mem_get_channel_events_set_events_channel (g ch : Nat)
    (nm : String) :
    ∀ (es : List String) (db : DB) (e : String),
    e ∈ get_channel_events (set_events_channel db g es ch nm) g ch ↔
    e ∈ es ∨ e ∈ get_channel_events db g ch := by
  intro es
  induction es with
  | nil =>
    intro db e
    simp [set_events_channel]
  | cons a rest ih =>
    intro db e
    have hstep : set_events_channel db g (a :: rest) ch nm =
        set_events_channel (set_event_channel db g a ch nm) g rest ch nm :=
      rfl
    rw [hstep, ih, mem_get_channel_events_set_event_channel]
    simp only [List.mem_cons]
    tauto

def dbW3 : DB := ⟨[], [], [⟨1, "image_send", 9, "misc"⟩]⟩

/-- C3 fails as stated: with a prior mapping of another event type to the
same channel, `set_events_channel` does not make `get_channel_events`
return exactly the given set — the untouched prior mapping survives. -/
theorem C3_counterexample :
    ¬ ((get_channel_events
        (set_events_channel dbW3 1 ["message_delete", "message_edit",
          "image_delete"] 9 "grouped") 1 9).toFinset =
      ({"message_delete", "message_edit", "image_delete"} :
        Finset String)) := by
  decide

/-- C3 amended: `set_events_channel(guild, [a,b,c], channel)` makes
`get_channel_events(guild, channel)` return exactly {a,b,c} (as a set)
provided no event type outside {a,b,c} was already mapped to that channel
for that guild — for example from an empty prior mapping state.  (In
general the prior mappings of other event types to the same channel
survive and are unioned in.) -/
theorem C3_amended_grouping (db : DB) (g ch : Nat) (nm a b c : String)
    (hprior : ∀ e, e ∈ get_channel_events db g ch →
      e = a ∨ e = b ∨ e = c) :
    (get_channel_events (set_events_channel db g [a, b, c] ch nm)
      g ch).toFinset = ({a, b, c} : Finset String) := by
  ext e
  rw [List.mem_toFinset, mem_get_channel_events_set_events_channel]
  simp only [Finset.mem_insert, Finset.mem_singleton, List.mem_cons,
    List.mem_singleton, List.not_mem_nil, or_false]
  constructor
  · rintro (h | h)
    · exact h
    · exact hprior e h
  · intro h
    exact Or.inl h

def dbW3e : DB := ⟨[], [], []⟩

/-- In-place overwrite of an existing key yields the new value on
lookup. -/
theorem lookupSession_map_overwrite (l : List (Nat × Session)) (u : Nat)
    (s : Session) (h : l.any (fun p => p.1 == u) = true) :
    lookupSession
      (l.map (fun p => if p.1 == u then (p.1, s) else p)) u = some s := by
  induction l with
  | nil => simp at h
  | cons p t ih =>
    by_cases hp : (p.1 == u) = true
    · simp only [List.map_cons, if_pos hp]
      unfold lookupSession
      simp [List.find?_cons, hp]
    · simp only [List.map_cons, if_neg hp]
      unfold lookupSession
      simp only [List.find?_cons, hp, Bool.false_eq_true, if_false]
      simp only [List.any_cons, Bool.or_eq_true] at h
      rcases h with h | h
      · exact absurd h hp
      · exact ih h

/-- Appending a fresh key makes it found by lookup. -/
theorem lookupSession_append_fresh (l : List (Nat × Session)) (u : Nat)
    (s : Session) (h : l.any (fun p => p.1 == u) = false) :
    lookupSession (l ++ [(u, s)]) u = some s := by
  induction l with
  | nil =>
    unfold lookupSession
    simp [List.find?]
  | cons p t ih =>
    simp only [List.any_cons, Bool.or_eq_false_iff] at h
    unfold lookupSession
    rw [List.cons_append]
    simp only [List.find?_cons, h.1, Bool.false_eq_true, if_false]
    exact ih h.2

/-- `start_session` makes the user's entry the freshly started session,
whether or not one existed before. -/
theorem lookupSession_setSession_self (l : List (Nat × Session)) (u : Nat)
    (s : Session) : lookupSession (setSession l u s) u = some s := by
  unfold setSession
  by_cases h : l.any (fun p => p.1 == u) = true
  · rw [if_pos h]
    exact lookupSession_map_overwrite l u s h
  · rw [if_neg h]
    exact lookupSession_append_fresh l u s (eq_false_of_ne_true h)

/-- The key list after `setSession`. -/
theorem map_fst_setSession (l : List (Nat × Session)) (u : Nat)
    (s : Session) :
    (setSession l u s).map Prod.fst =
      if l.any (fun p => p.1 == u) then l.map Prod.fst
      else l.map Prod.fst ++ [u] := by
  unfold setSession
  by_cases h : l.any (fun p => p.1 == u) = true
  · rw [if_pos h, if_pos h, List.map_map]
    apply List.map_congr_left
    intro p _
    by_cases hp : p.1 = u <;> simp [hp]
  · rw [if_neg h, if_neg h]
    simp

/-- The dict keyed by user id keeps at most one entry per user:
`setSession` preserves duplicate-freeness of the key list. -/
theorem setSession_nodup (l : List (Nat × Session)) (u : Nat) (s : Session)
    (h : (l.map Prod.fst).Nodup) :
    ((setSession l u s).map Prod.fst).Nodup := by
  rw [map_fst_setSession]
  by_cases hc : l.any (fun p => p.1 == u) = true
  · rw [if_pos hc]
    exact h
  · rw [if_neg hc]
    refine List.Nodup.append h (List.nodup_singleton u) ?_
    intro a ha hb
    have hau : a = u := List.mem_singleton.mp hb
    rcases List.mem_map.mp ha with ⟨p, hp, hpa⟩
    exact hc (List.any_eq_true.mpr ⟨p, hp, by simp [hpa, hau]⟩)

/-- `get_log_channel` can only self-heal the mapping table: guild configs
and event enablement are untouched. -/
theorem get_log_channel_frame (env : GuildEnv) (db : DB) (g : Nat)
    (e : String) :
    (get_log_channel env db g e).2.guild_configs = db.guild_configs ∧
    (get_log_channel env db g e).2.log_events = db.log_events := by
  unfold get_log_channel
  rcases h : get_event_channel db g e with _ | cid
  · simp
  · by_cases hv : channel_valid env cid = true <;>
      simp [hv, remove_event_channel]

/-- Likewise for a full `send_log` call. -/
theorem send_log_frame (env : GuildEnv) (db : DB) (g : Nat) (e : String)
    (d : Option Nat) :
    (send_log env db g e d).1.guild_configs = db.guild_configs ∧
    (send_log env db g e d).1.log_events = db.log_events := by
  have hf := get_log_channel_frame env db g e
  unfold send_log
  rcases h : get_log_channel env db g e with ⟨o, db'⟩
  rw [h] at hf
  cases o <;> simpa using hf

/-- The enablement gate is unaffected by routing side effects. -/
theorem check_logging_enabled_send_log (env : GuildEnv) (db : DB)
    (g : Nat) (e : String) (d : Option Nat) (g' : Nat) (e' : String) :
    check_logging_enabled (send_log env db g e d).1 g' e' =
      check_logging_enabled db g' e' := by
  have hf := send_log_frame env db g e d
  unfold check_logging_enabled is_logging_enabled get_guild_config
    is_event_enabled get_log_events
  rw [hf.1, hf.2]

/-- `send_log` emits at most one embed record and never a session-summary
record. -/
theorem send_log_no_session_end (env : GuildEnv) (db : DB) (g : Nat)
    (e : String) (d : Option Nat) :
    ((send_log env db g e d).2).filter is_session_end_rec = [] := by
  unfold send_log
  rcases h : get_log_channel env db g e with ⟨o, db'⟩
  cases o <;> simp [is_session_end_rec]

/-- Every record `send_log` emits carries the duration field it was given:
with `none` no embed carries a session-duration field. -/
theorem send_log_no_duration_field (env : GuildEnv) (db : DB) (g : Nat)
    (e : String) :
    ((send_log env db g e none).2).all
      (fun r => !(has_duration_field r)) = true := by
  unfold send_log
  rcases h : get_log_channel env db g e with ⟨o, db'⟩
  cases o <;> simp [has_duration_field]

theorem C3_amended_grouping_witness :
    (∀ e, e ∈ get_channel_events dbW3e 1 9 →
      e = "voice_join" ∨ e = "voice_leave" ∨ e = "voice_move") ∧
    (get_channel_events (set_events_channel dbW3e 1
      ["voice_join", "voice_leave", "voice_move"] 9 "voice-logs")
      1 9).toFinset =
      ({"voice_join", "voice_leave", "voice_move"} : Finset String) :=
  ⟨by intro e h; simp [dbW3e, get_channel_events] at h,
   C3_amended_grouping dbW3e 1 9 "voice-logs" "voice_join" "voice_leave"
     "voice_move" (by intro e h; simp [dbW3e, get_channel_events] at h)⟩

/-- Lookup through the in-place move update (map form). -/
theorem lookupSession_map_move (l : List (Nat × Session)) (u c : Nat) :
    lookupSession (l.map (fun p =>
      if p.1 == u then
        (p.1, { p.2 with channel := c, moves := p.2.moves + 1 })
      else p)) u =
    (lookupSession l u).map
      (fun s => { s with channel := c, moves := s.moves + 1 }) := by
  induction l with
  | nil => rfl
  | cons p t ih =>
    by_cases hp : (p.1 == u) = true
    · simp only [List.map_cons, if_pos hp]
      unfold lookupSession
      simp [List.find?_cons, hp]
    · simp only [List.map_cons, if_neg hp]
      unfold lookupSession at ih ⊢
      simp only [List.find?_cons, hp, Bool.false_eq_true, if_false]
      exact ih

/-- A user id absent from the key list is not found. -/
theorem lookupSession_eq_none_of_not_any (l : List (Nat × Session))
    (u : Nat) (h : ¬ l.any (fun p => p.1 == u) = true) :
    lookupSession l u = none := by
  unfold lookupSession
  rw [List.find?_eq_none.mpr]
  · rfl
  · intro x hx hpx
    exact h (List.any_eq_true.mpr ⟨x, hx, hpx⟩)

/-- `handle_voice_move`'s session mutation, seen through lookup: the
user's session (when present) gets the new channel and one more move. -/
theorem lookupSession_update_move (l : List (Nat × Session)) (u c : Nat) :
    lookupSession (update_move l u c) u =
      (lookupSession l u).map
        (fun s => { s with channel := c, moves := s.moves + 1 }) := by
  unfold update_move
  by_cases h : l.any (fun p => p.1 == u) = true
  · rw [if_pos h]
    exact lookupSession_map_move l u c
  · rw [if_neg h]
    rw [lookupSession_eq_none_of_not_any l u h]
    rfl

def dbW4 : DB :=
  ⟨[⟨7, "guild", true, some 9⟩], [⟨7, "voice_join", true⟩], []⟩

def stW4 : VoiceState := ⟨[(1, ⟨1, 5, 100, 7, 2⟩)], ⟨1, 0, 0, [1]⟩⟩

/-- C4 fails as stated: user 1 has an active session (channel 5, two moves
accrued), yet handling a fresh voice join for user 1 emits no session-end
record — the stale session is silently replaced by the new one. -/
theorem C4_counterexample :
    (lookupSession stW4.active_sessions 1).isSome = true ∧
    ((handle_voice_join envW dbW4 stW4 1 6 7 200).2.2.filter
      is_session_end_rec) = [] ∧
    lookupSession
      (handle_voice_join envW dbW4 stW4 1 6 7 200).2.1.active_sessions 1 =
      some ⟨1, 6, 200, 7, 0⟩ := by
  decide

/-- C4 amended: the tracker does keep at most one active session per user
(the session dict is keyed by user id, and `start_session` preserves key
uniqueness), but a `start_session` for a user that already has an active
session replaces it in place WITHOUT emitting a session-end record: the
stale session's accrued duration state is silently discarded. -/
theorem C4_amended_silent_overwrite (env : GuildEnv) (db : DB)
    (st : VoiceState) (user channel guild now : Nat)
    (hkeys : (st.active_sessions.map Prod.fst).Nodup) :
    ((start_session st user channel guild now).active_sessions.map
      Prod.fst).Nodup ∧
    lookupSession
      (start_session st user channel guild now).active_sessions user =
      some ⟨user, channel, now, guild, 0⟩ ∧
    ((handle_voice_join env db st user channel guild now).2.2.filter
      is_session_end_rec) = [] := by
  refine ⟨setSession_nodup _ _ _ hkeys,
    lookupSession_setSession_self _ _ _, ?_⟩
  unfold handle_voice_join
  by_cases h : check_logging_enabled db guild "voice_join" = true
  · rw [if_pos h]
    rcases hsl : send_log env db guild "voice_join" none with ⟨db', sendRecs⟩
    have hend := send_log_no_session_end env db guild "voice_join" none
    rw [hsl] at hend
    simp only at hend
    simp [hend, is_session_end_rec]
  · rw [if_neg h]
    simp

theorem C4_amended_silent_overwrite_witness :
    (stW4.active_sessions.map Prod.fst).Nodup ∧
    lookupSession (start_session stW4 1 6 7 200).active_sessions 1 =
      some ⟨1, 6, 200, 7, 0⟩ :=
  ⟨by decide,
   (C4_amended_silent_overwrite envW dbW4 stW4 1 6 7 200 (by decide)).2.1⟩

/-- C5: join(chA) then move(chA→chB) then leave, with the voice events
enabled, yields exactly one session-summary record, carrying exactly one
move and the full elapsed time t3 − t1 between join and leave as its
duration. -/
theorem C5_session_lifecycle (env : GuildEnv) (db : DB) (st : VoiceState)
    (user chA chB guild t1 t2 t3 : Nat)
    (db1 db2 db3 : DB) (st1 st2 st3 : VoiceState) (r1 r2 r3 : List Rec)
    (h1 : check_logging_enabled db guild "voice_join" = true)
    (h2 : check_logging_enabled db guild "voice_move" = true)
    (h3 : check_logging_enabled db guild "voice_leave" = true)
    (e1 : handle_voice_join env db st user chA guild t1 = (db1, st1, r1))
    (e2 : handle_voice_move env db1 st1 user chA chB guild t2 =
      (db2, st2, r2))
    (e3 : handle_voice_leave env db2 st2 user chB guild t3 =
      (db3, st3, r3)) :
    (r1 ++ r2 ++ r3).filter is_session_end_rec =
      [Rec.sessionEnded user guild (t3 - t1) 1 EndReason.userLeft] := by
  unfold handle_voice_join at e1
  rw [if_pos h1] at e1
  rcases hsl1 : send_log env db guild "voice_join" none with ⟨d1, sr1⟩
  rw [hsl1] at e1
  simp only [start_session] at e1
  injection e1 with e1a e1r
  injection e1r with e1b e1c
  subst e1a
  subst e1b
  subst e1c
  have hc1 := check_logging_enabled_send_log env db guild "voice_join"
    none guild "voice_move"
  rw [hsl1] at hc1
  simp only at hc1
  unfold handle_voice_move at e2
  rw [if_pos (hc1.trans h2)] at e2
  rcases hsl2 : send_log env d1 guild "voice_move" none with ⟨d2, sr2⟩
  rw [hsl2] at e2
  simp only at e2
  injection e2 with e2a e2r
  injection e2r with e2b e2c
  subst e2a
  subst e2b
  subst e2c
  have hc2 := check_logging_enabled_send_log env d1 guild "voice_move"
    none guild "voice_leave"
  rw [hsl2] at hc2
  simp only at hc2
  have hc1' := check_logging_enabled_send_log env db guild "voice_join"
    none guild "voice_leave"
  rw [hsl1] at hc1'
  simp only at hc1'
  unfold handle_voice_leave at e3
  rw [if_pos ((hc2.trans hc1').trans h3)] at e3
  have hlook : lookupSession
      (update_move (setSession st.active_sessions user
        ⟨user, chA, t1, guild, 0⟩) user chB) user =
      some ⟨user, chB, t1, guild, 1⟩ := by
    rw [lookupSession_update_move, lookupSession_setSession_self]
    rfl
  unfold end_session at e3
  simp only [hlook] at e3
  rcases hsl3 : send_log env d2 guild "voice_leave"
      (if (t3 - t1) != 0 then some (t3 - t1) else none) with ⟨d3, sr3⟩
  rw [hsl3] at e3
  simp only at e3
  injection e3 with e3a e3r
  injection e3r with e3b e3c
  subst e3a
  subst e3b
  subst e3c
  have f1 := send_log_no_session_end env db guild "voice_join" none
  rw [hsl1] at f1
  simp only at f1
  have f2 := send_log_no_session_end env d1 guild "voice_move" none
  rw [hsl2] at f2
  simp only at f2
  have f3 := send_log_no_session_end env d2 guild "voice_leave"
    (if (t3 - t1) != 0 then some (t3 - t1) else none)
  rw [hsl3] at f3
  simp only at f3
  simp [List.filter_append, f1, f2, f3, is_session_end_rec]

/-- Popping a user removes every entry under that key. -/
theorem lookupSession_dropSession_self (l : List (Nat × Session))
    (u : Nat) : lookupSession (dropSession l u) u = none := by
  apply lookupSession_eq_none_of_not_any
  intro h
  rcases List.any_eq_true.mp h with ⟨p, hp, hpu⟩
  have hk := (List.mem_filter.mp hp).2
  rw [hpu] at hk
  simp at hk

/-- Popping another user leaves a lookup unchanged. -/
theorem lookupSession_dropSession_other (l : List (Nat × Session))
    (v u : Nat) (h : v ≠ u) :
    lookupSession (dropSession l v) u = lookupSession l u := by
  unfold dropSession lookupSession
  induction l with
  | nil => rfl
  | cons p t ih =>
    simp only [List.filter_cons]
    by_cases hv : (p.1 == v) = true
    · have hu : (p.1 == u) = false := by
        rw [beq_iff_eq] at hv
        rw [beq_eq_false_iff_ne, hv]
        exact h
      simp only [hv, Bool.not_true, Bool.false_eq_true, if_false,
        List.find?_cons, hu]
      exact ih
    · rw [eq_false_of_ne_true hv]
      simp only [Bool.not_false, if_true]
      by_cases hu : (p.1 == u) = true
      · simp [List.find?_cons, hu]
      · simp only [List.find?_cons, eq_false_of_ne_true hu,
          Bool.false_eq_true, if_false]
        exact ih

/-- Ending any session never makes another user's absent session
reappear. -/
theorem end_session_preserves_none (st : VoiceState) (v u : Nat)
    (r : EndReason) (now : Nat)
    (h : lookupSession st.active_sessions u = none) :
    lookupSession (end_session st v r now).2.1.active_sessions u =
      none := by
  unfold end_session
  rcases hl : lookupSession st.active_sessions v with _ | sv
  · simpa using h
  · simp only
    by_cases hvu : v = u
    · subst hvu
      exact lookupSession_dropSession_self _ _
    · rw [lookupSession_dropSession_other _ _ _ hvu]
      exact h

/-- The cleanup loop never resurrects a session. -/
theorem end_sessions_list_preserves_none (now : Nat) :
    ∀ (pairs : List (Nat × EndReason)) (st : VoiceState) (u : Nat),
    lookupSession st.active_sessions u = none →
    lookupSession (end_sessions_list st pairs now).1.active_sessions u =
      none := by
  intro pairs
  induction pairs with
  | nil =>
    intro st u h
    simpa [end_sessions_list] using h
  | cons p rest ih =>
    rcases p with ⟨v, r⟩
    intro st u h
    simp only [end_sessions_list]
    exact ih _ u (end_session_preserves_none st v u r now h)

/-- The key list of the stale-session scan is a sublist of the session key
list (each marked entry keeps its user id). -/
theorem map_fst_stale_sublist (in_voice : Nat → Bool)
    (l : List (Nat × Session)) (now : Nat) :
    List.Sublist ((stale_sessions in_voice l now).map Prod.fst)
      (l.map Prod.fst) := by
  induction l with
  | nil => simp [stale_sessions]
  | cons p t ih =>
    simp only [stale_sessions, List.filterMap_cons] at ih ⊢
    rcases h : (if now - p.2.start_time > 21600 then
        some (p.1, EndReason.cleanupTooOld)
      else if !(in_voice p.2.member) then
        some (p.1, EndReason.cleanupNotInVoice)
      else none) with _ | q
    · simp only [List.map_cons]
      exact List.Sublist.cons _ ih
    · have hq : q.1 = p.1 := by
        split_ifs at h with h1 h2
        · cases h
          rfl
        · cases h
          rfl
      simp only [List.map_cons, hq]
      exact List.Sublist.cons₂ _ ih

/-- The cleanup loop: a user marked for cleanup with a unique key and an
active session ends up removed from the active map, with the matching
session-summary record emitted. -/
theorem end_sessions_list_ends (now : Nat) :
    ∀ (pairs : List (Nat × EndReason)) (st : VoiceState) (u : Nat)
      (r : EndReason) (s : Session),
    (pairs.map Prod.fst).Nodup →
    (u, r) ∈ pairs →
    lookupSession st.active_sessions u = some s →
    lookupSession (end_sessions_list st pairs now).1.active_sessions u =
      none ∧
    Rec.sessionEnded u s.guild_id (now - s.start_time) s.moves r ∈
      (end_sessions_list st pairs now).2 := by
  intro pairs
  induction pairs with
  | nil =>
    intro st u r s _ hmem _
    simp at hmem
  | cons p rest ih =>
    rcases p with ⟨v, r'⟩
    intro st u r s hnd hmem hlook
    simp only [List.map_cons, List.nodup_cons] at hnd
    by_cases hvu : u = v
    · subst hvu
      have hrr : r' = r := by
        rcases List.mem_cons.mp hmem with heq | htail
        · exact (congrArg Prod.snd heq).symm
        · exact absurd (List.mem_map.mpr ⟨(u, r), htail, rfl⟩) hnd.1
      subst hrr
      have hstep : end_session st u r' now =
          (some ⟨now - s.start_time, s.start_time, now, s.channel,
            s.moves, r'⟩,
           { st with active_sessions := dropSession st.active_sessions u },
           [Rec.sessionEnded u s.guild_id (now - s.start_time) s.moves
             r']) := by
        unfold end_session
        rw [hlook]
      simp only [end_sessions_list, hstep]
      constructor
      · apply end_sessions_list_preserves_none
        exact lookupSession_dropSession_self _ _
      · simp
    · have hmem' : (u, r) ∈ rest := by
        rcases List.mem_cons.mp hmem with heq | htail
        · exact absurd (congrArg Prod.fst heq) hvu
        · exact htail
      have hlook' :
          lookupSession (end_session st v r' now).2.1.active_sessions u =
            some s := by
        rcases hl : lookupSession st.active_sessions v with _ | sv
        · have hstep : end_session st v r' now = (none, st, []) := by
            unfold end_session
            rw [hl]
          rw [hstep]
          exact hlook
        · have hstep : end_session st v r' now =
              (some ⟨now - sv.start_time, sv.start_time, now, sv.channel,
                sv.moves, r'⟩,
               { st with active_sessions :=
                   dropSession st.active_sessions v },
               [Rec.sessionEnded v sv.guild_id (now - sv.start_time)
                 sv.moves r']) := by
            unfold end_session
            rw [hl]
          rw [hstep]
          exact (lookupSession_dropSession_other _ _ _
            (Ne.symm hvu)).trans hlook
      have hrec := ih (end_session st v r' now).2.1 u r s hnd.2 hmem'
        hlook'
      simp only [end_sessions_list]
      exact ⟨hrec.1, List.mem_append_right _ hrec.2⟩

/-- C6: an active session older than the six-hour staleness threshold at
sweep time is ended by `cleanup_stale_sessions` with the too-old cleanup
reason — its session-summary record is emitted — and it is removed from
the active-session map, without any leave event. -/
theorem C6_stale_session_cleaned (in_voice : Nat → Bool)
    (st : VoiceState) (now user : Nat) (s : Session)
    (hkeys : (st.active_sessions.map Prod.fst).Nodup)
    (hlook : lookupSession st.active_sessions user = some s)
    (hold : now - s.start_time > 21600) :
    lookupSession
      (cleanup_stale_sessions in_voice st now).1.active_sessions user =
      none ∧
    Rec.sessionEnded user s.guild_id (now - s.start_time) s.moves
      EndReason.cleanupTooOld ∈
      (cleanup_stale_sessions in_voice st now).2 := by
  have hmeml : (user, s) ∈ st.active_sessions := by
    unfold lookupSession at hlook
    rcases ho : st.active_sessions.find? (fun p => p.1 == user)
      with _ | p
    · rw [ho] at hlook
      simp at hlook
    · rw [ho] at hlook
      have hp := List.find?_some ho
      have hpm : p ∈ st.active_sessions := List.mem_of_find?_eq_some ho
      have hps : p.2 = s := by
        simpa using hlook
      have hp1 : p.1 = user := by
        simpa using hp
      have hpe : p = (user, s) := Prod.ext_iff.mpr ⟨hp1, hps⟩
      rwa [hpe] at hpm
  have hstale : (user, EndReason.cleanupTooOld) ∈
      stale_sessions in_voice st.active_sessions now := by
    unfold stale_sessions
    refine List.mem_filterMap.mpr ⟨(user, s), hmeml, ?_⟩
    simp [hold]
  have hndstale : ((stale_sessions in_voice st.active_sessions
      now).map Prod.fst).Nodup :=
    List.Nodup.sublist (map_fst_stale_sublist in_voice
      st.active_sessions now) hkeys
  unfold cleanup_stale_sessions
  exact end_sessions_list_ends now _ st user EndReason.cleanupTooOld s
    hndstale hstale hlook

def stW6 : VoiceState := ⟨[(3, ⟨3, 5, 100, 7, 0⟩)], ⟨1, 0, 0, [3]⟩⟩

theorem C6_stale_session_cleaned_witness :
    (stW6.active_sessions.map Prod.fst).Nodup ∧
    lookupSession stW6.active_sessions 3 = some ⟨3, 5, 100, 7, 0⟩ ∧
    (30000 - 100 > 21600) ∧
    lookupSession
      (cleanup_stale_sessions (fun _ => true) stW6
        30000).1.active_sessions 3 = none ∧
    Rec.sessionEnded 3 7 (30000 - 100) 0 EndReason.cleanupTooOld ∈
      (cleanup_stale_sessions (fun _ => true) stW6 30000).2 :=
  ⟨by decide, by decide, by decide,
   (C6_stale_session_cleaned (fun _ => true) stW6 30000 3 ⟨3, 5, 100, 7, 0⟩
     (by decide) (by decide) (by decide)).1,
   (C6_stale_session_cleaned (fun _ => true) stW6 30000 3 ⟨3, 5, 100, 7, 0⟩
     (by decide) (by decide) (by decide)).2⟩

def dbW5 : DB :=
  ⟨[⟨7, "guild", true, some 9⟩],
   [⟨7, "voice_join", true⟩, ⟨7, "voice_move", true⟩,
    ⟨7, "voice_leave", true⟩], []⟩

def stW5 : VoiceState := ⟨[], ⟨0, 0, 0, []⟩⟩

theorem C5_session_lifecycle_witness :
    check_logging_enabled dbW5 7 "voice_join" = true ∧
    ([Rec.embedSent "voice_join" 9 none, Rec.memberJoinLog 1 5] ++
     [Rec.embedSent "voice_move" 9 none, Rec.memberMoveLog 1 5 6] ++
     [Rec.sessionEnded 1 7 300 1 EndReason.userLeft,
      Rec.embedSent "voice_leave" 9 (some 300),
      Rec.memberLeaveLog 1 6 300]).filter is_session_end_rec =
      [Rec.sessionEnded 1 7 300 1 EndReason.userLeft] :=
  ⟨by decide,
   C5_session_lifecycle envW dbW5 stW5 1 5 6 7 100 160 400
     dbW5 dbW5 dbW5
     ⟨[(1, ⟨1, 5, 100, 7, 0⟩)], ⟨1, 0, 0, [1]⟩⟩
     ⟨[(1, ⟨1, 6, 100, 7, 1⟩)], ⟨1, 0, 1, [1]⟩⟩
     ⟨[], ⟨1, 1, 1, []⟩⟩
     [Rec.embedSent "voice_join" 9 none, Rec.memberJoinLog 1 5]
     [Rec.embedSent "voice_move" 9 none, Rec.memberMoveLog 1 5 6]
     [Rec.sessionEnded 1 7 300 1 EndReason.userLeft,
      Rec.embedSent "voice_leave" 9 (some 300),
      Rec.memberLeaveLog 1 6 300]
     (by decide) (by decide) (by decide)
     (by decide) (by decide) (by decide)⟩

/-- C10: a voice leave for a user with no active session is handled
gracefully: `end_session` returns `None` with the state untouched and no
record emitted, and `handle_voice_leave` still emits the leave record —
with a zero `session_duration_seconds` and no session-duration embed
field — without any session-summary record. -/
theorem C10_leave_without_session (env : GuildEnv) (db : DB)
    (st : VoiceState) (user channel guild now t : Nat)
    (reason : EndReason)
    (hnone : lookupSession st.active_sessions user = none)
    (hgate : check_logging_enabled db guild "voice_leave" = true) :
    end_session st user reason t = (none, st, []) ∧
    (handle_voice_leave env db st user channel guild
      now).2.1.active_sessions = st.active_sessions ∧
    ((handle_voice_leave env db st user channel guild now).2.2.filter
      is_session_end_rec) = [] ∧
    Rec.memberLeaveLog user channel 0 ∈
      (handle_voice_leave env db st user channel guild now).2.2 ∧
    (handle_voice_leave env db st user channel guild now).2.2.all
      (fun r => !(has_duration_field r)) = true := by
  have hend : ∀ (tt : Nat) (rr : EndReason),
      end_session st user rr tt = (none, st, []) := by
    intro tt rr
    unfold end_session
    rw [hnone]
  rcases hsl : send_log env db guild "voice_leave" none with ⟨d1, sr⟩
  have f := send_log_no_session_end env db guild "voice_leave" none
  rw [hsl] at f
  simp only at f
  have g := send_log_no_duration_field env db guild "voice_leave"
  rw [hsl] at g
  simp only at g
  refine ⟨hend t reason, ?_, ?_, ?_, ?_⟩
  · unfold handle_voice_leave
    rw [if_pos hgate, hend now EndReason.userLeft]
  · unfold handle_voice_leave
    rw [if_pos hgate, hend now EndReason.userLeft]
    simp only [hsl]
    simp [List.filter_append, f, is_session_end_rec]
  · unfold handle_voice_leave
    rw [if_pos hgate, hend now EndReason.userLeft]
    simp only [hsl]
    simp [List.mem_append]
  · unfold handle_voice_leave
    rw [if_pos hgate, hend now EndReason.userLeft]
    simp only [hsl]
    simp only [List.nil_append, List.all_append, List.all_cons,
      List.all_nil, g, Bool.and_true, Bool.true_and, Bool.and_self]
    rfl

def dbW10 : DB :=
  ⟨[⟨7, "guild", true, some 9⟩], [⟨7, "voice_leave", true⟩], []⟩

theorem C10_leave_without_session_witness :
    lookupSession stW7.active_sessions 1 = none ∧
    check_logging_enabled dbW10 7 "voice_leave" = true ∧
    end_session stW7 1 EndReason.userLeft 500 = (none, stW7, []) ∧
    (handle_voice_leave envW dbW10 stW7 1 6 7 500).2.1.active_sessions =
      stW7.active_sessions ∧
    Rec.memberLeaveLog 1 6 0 ∈
      (handle_voice_leave envW dbW10 stW7 1 6 7 500).2.2 :=
  ⟨by decide, by decide,
   (C10_leave_without_session envW dbW10 stW7 1 6 7 500 500
     EndReason.userLeft (by decide) (by decide)).1,
   (C10_leave_without_session envW dbW10 stW7 1 6 7 500 500
     EndReason.userLeft (by decide) (by decide)).2.1,
   (C10_leave_without_session envW dbW10 stW7 1 6 7 500 500
     EndReason.userLeft (by decide) (by decide)).2.2.2.1⟩

/-- C9: the forwarding guard of `on_message_delete` records every handled
message id, and a second invocation with the same id — before the
five-minute reset window has elapsed — dispatches to neither the
attachment module nor the plain message module and leaves the state
unchanged. -/
theorem C9_dedupe_guard (st0 st : DedupState) (msg : MsgEvent)
    (t1 t2 : Nat)
    (hmem : st.processed_messages.contains msg.id = true)
    (hfresh : t2 - st.last_cleanup ≤ 300) :
    (on_message_delete t1 msg st0).1.processed_messages.contains msg.id
      = true ∧
    on_message_delete t2 msg st = (st, []) := by
  constructor
  · unfold on_message_delete
    by_cases hr : t1 - st0.last_cleanup > 300
    · simp only [if_pos hr]
      rcases hb : msg.has_attachments <;> simp [hb]
    · simp only [if_neg hr]
      rcases hc : st0.processed_messages.contains msg.id
      · simp only [hc, Bool.false_eq_true, if_false]
        rcases hb : msg.has_attachments <;> simp [hb]
      · have hc' : msg.id ∈ st0.processed_messages := by
          simpa using hc
        simp [hc']
  · have hmem' : msg.id ∈ st.processed_messages := by
      simpa using hmem
    unfold on_message_delete
    have hr : ¬ (t2 - st.last_cleanup > 300) := not_lt.mpr hfresh
    simp [if_neg hr, hmem']

def stW9 : DedupState := ⟨[101], 1000⟩

theorem C9_dedupe_guard_witness :
    ((on_message_delete 1000 (⟨101, false⟩ : MsgEvent)
        (⟨[], 1000⟩ : DedupState)).1.processed_messages.contains 101
      = true) ∧
    ((⟨[101], 1000⟩ : DedupState).processed_messages.contains 101
      = true) ∧
    (1200 - (1000 : Nat) ≤ 300) ∧
    on_message_delete 1200 (⟨101, false⟩ : MsgEvent) stW9 = (stW9, []) :=
  ⟨(C9_dedupe_guard (⟨[], 1000⟩ : DedupState) stW9 ⟨101, false⟩ 1000 1200
      (by decide) (by decide)).1,
   by decide, by decide,
   (C9_dedupe_guard (⟨[], 1000⟩ : DedupState) stW9 ⟨101, false⟩ 1000 1200
      (by decide) (by decide)).2⟩

end ClaudeBot
